import Mathlib

/-!
Verification development for the Kasir & Laba Rugi dashboard
(`src/IMR/app.py`).

The program is a single Streamlit script.  We shallow-embed its core
pipeline:

* an uploaded table (`UploadedTable`) is a column-name list together with
  the parsed sales rows (columns `Nama Barang`, `Harga Modal`,
  `Harga Jual`, `Jumlah Terjual`);
* the derived columns `Total Modal`, `Total Penjualan`, `Keuntungan`
  (app.py lines 83-85);
* the duckdb query `SELECT "Nama Barang" AS Barang, SUM(...) ... GROUP BY
  "Nama Barang" ORDER BY Keuntungan DESC` (lines 87-96).  duckdb
  specifies neither the output order of `GROUP BY` nor the relative
  order of `ORDER BY` ties, so the embedding fixes one admissible
  result (first-occurrence grouping, then an insertion sort descending
  by `Keuntungan`); every property proved below is insensitive to that
  choice — it concerns the row multiset, the descending order of
  profits, emptiness, or rows with pairwise distinct profits;
* the grand totals, best/worst item, rule-based commentary and
  profit/loss banner (lines 113-135);
* the AI commentary function `generate_ai_commentary` (lines 35-59) and
  the chat turn loop (lines 149-177), with the external Groq call
  abstracted as an oracle `List Message → CallOutcome`;
* the Streamlit `session_state` guard around `chat_history`
  (lines 149-153), modelled as an optional previous state.

Numbers are embedded as `Rat` (exact arithmetic in place of the script's
floating point).  Fallible steps (missing columns; `summary.iloc[0]` /
`summary.iloc[-1]` on an empty frame) are modelled with `Except`.
-/

set_option maxRecDepth 100000

/-- One parsed row of the uploaded table: the four required columns
`Nama Barang`, `Harga Modal`, `Harga Jual`, `Jumlah Terjual`
(extra columns of the upload are ignored by the pipeline). -/
structure SalesRow where
  namaBarang : String
  hargaModal : Rat
  hargaJual : Rat
  jumlahTerjual : Rat
deriving DecidableEq, Repr

/-- An uploaded table: its column-name list and its data rows. -/
structure UploadedTable where
  columns : List String
  data : List SalesRow
deriving DecidableEq, Repr

/-- `required_cols = ["Nama Barang", "Harga Modal", "Harga Jual", "Jumlah Terjual"]`
(app.py line 80). -/
def required_cols : List String :=
  ["Nama Barang", "Harga Modal", "Harga Jual", "Jumlah Terjual"]

/-- The check `all(col in df.columns for col in required_cols)` (line 82). -/
def hasRequiredCols (t : UploadedTable) : Bool :=
  required_cols.all fun c => t.columns.contains c

/-- A row extended with the derived columns (app.py lines 83-85). -/
structure DerivedRow where
  namaBarang : String
  hargaModal : Rat
  hargaJual : Rat
  jumlahTerjual : Rat
  totalModal : Rat
  totalPenjualan : Rat
  keuntungan : Rat
deriving DecidableEq, Repr

/-- `df["Total Modal"] = df["Harga Modal"] * df["Jumlah Terjual"]`,
`df["Total Penjualan"] = df["Harga Jual"] * df["Jumlah Terjual"]`,
`df["Keuntungan"] = df["Total Penjualan"] - df["Total Modal"]`
(app.py lines 83-85). -/
def addDerived (r : SalesRow) : DerivedRow :=
  let tm := r.hargaModal * r.jumlahTerjual
  let tp := r.hargaJual * r.jumlahTerjual
  { namaBarang := r.namaBarang
    hargaModal := r.hargaModal
    hargaJual := r.hargaJual
    jumlahTerjual := r.jumlahTerjual
    totalModal := tm
    totalPenjualan := tp
    keuntungan := tp - tm }

/-- One row of the duckdb aggregation result `summary`
(`Barang`, `Total_Modal`, `Total_Penjualan`, `Keuntungan`, lines 88-95). -/
structure SummaryRow where
  barang : String
  total_Modal : Rat
  total_Penjualan : Rat
  keuntungan : Rat
deriving DecidableEq, Repr

/-- One step of collecting grouping keys: record a row's `Nama Barang`
unless it was seen before. -/
def groupKeysStep (ks : List String) (r : DerivedRow) : List String :=
  if ks.contains r.namaBarang then ks else ks ++ [r.namaBarang]

/-- The distinct values of `Nama Barang` in first-occurrence order:
the grouping keys of `GROUP BY "Nama Barang"` (line 93). -/
def groupKeys (rows : List DerivedRow) : List String :=
  rows.foldl groupKeysStep []

/-- The aggregate row for one grouping key: `SUM("Total Modal")`,
`SUM("Total Penjualan")`, `SUM("Keuntungan")` over the rows of that
`Nama Barang` (lines 89-93). -/
def sumFor (rows : List DerivedRow) (k : String) : SummaryRow :=
  let grp := rows.filter fun r => r.namaBarang == k
  { barang := k
    total_Modal := (grp.map DerivedRow.totalModal).sum
    total_Penjualan := (grp.map DerivedRow.totalPenjualan).sum
    keuntungan := (grp.map DerivedRow.keuntungan).sum }

/-- The grouped (pre-`ORDER BY`) aggregation result, one row per distinct
`Nama Barang`.  duckdb does not specify an output order for `GROUP BY`;
first-occurrence order is the embedding's choice of an admissible
order, and no theorem below depends on it. -/
def groupedRows (t : UploadedTable) : List SummaryRow :=
  let derived := t.data.map addDerived
  (groupKeys derived).map (sumFor derived)

/-- The comparison of `ORDER BY Keuntungan DESC` (line 94):
row `a` may precede row `b` when `b.keuntungan ≤ a.keuntungan`. -/
def profitDescRel (a b : SummaryRow) : Prop :=
  b.keuntungan ≤ a.keuntungan

instance : DecidableRel profitDescRel := fun a b =>
  inferInstanceAs (Decidable (b.keuntungan ≤ a.keuntungan))

/-- The full duckdb query result `summary` (lines 87-96): group by
`Nama Barang`, then sort descending by `Keuntungan`.  duckdb leaves the
relative order of equal-profit rows unspecified; the insertion sort
realizes one admissible descending order, and no theorem below depends
on which one. -/
def summarize (t : UploadedTable) : List SummaryRow :=
  List.insertionSort profitDescRel (groupedRows t)

/-- Round a rational to the nearest integer, ties to even: the rounding
of Python's `format(x, ',.0f')` used at lines 122-128. -/
def roundHalfEven (x : Rat) : Int :=
  let f : Int := ⌊x⌋
  let r : Rat := x - f
  if r < 1/2 then f
  else if 1/2 < r then f + 1
  else if f % 2 = 0 then f else f + 1

/-- Insert a thousands separator after every third digit of a reversed
digit list. -/
def addCommasRev : List Char → List Char
  | c1 :: c2 :: c3 :: rest@(_ :: _) => c1 :: c2 :: c3 :: ',' :: addCommasRev rest
  | l => l

/-- Python's `f"{x:,.0f}"`: round to an integer and group digits in
threes with commas. -/
def formatF0 (x : Rat) : String :=
  let n := roundHalfEven x
  let sign := if n < 0 then "-" else ""
  sign ++ String.mk (addCommasRev (toString n.natAbs).toList.reverse).reverse

/-- The rule-based commentary f-string (app.py lines 120-128). -/
def commentaryText (total_modal total_penjualan total_keuntungan : Rat)
    (best worst : SummaryRow) : String :=
  "\n        🔍 **Ringkasan Bisnis:**\n        - Total Modal: **Rp " ++
    formatF0 total_modal ++
    "**\n        - Total Penjualan: **Rp " ++ formatF0 total_penjualan ++
    "**\n        - Total Keuntungan: **Rp " ++ formatF0 total_keuntungan ++
    "**\n\n        💰 Barang paling untung: **" ++ best.barang ++
    "** (+Rp " ++ formatF0 best.keuntungan ++
    ")  \n        ⚠️ Barang paling rugi: **" ++ worst.barang ++
    "** (" ++ formatF0 worst.keuntungan ++ ")\n        "

/-- `st.success` banner text (line 133). -/
def untungMsg : String :=
  "🎉 Bisnis dalam kondisi **UNTUNG**! Pertahankan strategi penjualan."

/-- `st.error` banner text (line 135). -/
def rugiMsg : String :=
  "⚠️ Bisnis mengalami **RUGI**. Evaluasi harga jual atau jumlah stok."

/-- `st.warning` text of the missing-columns branch (line 180). -/
def warnMsg : String :=
  "⚠️ Pastikan file memiliki kolom: Nama Barang, Harga Modal, Harga Jual, dan Jumlah Terjual."

/-- How a run of the dashboard script can fail: the missing-columns
warning branch (lines 179-180), or the `IndexError` that
`summary.iloc[0]` / `summary.iloc[-1]` raise on an empty summary
(lines 117-118). -/
inductive DashboardError where
  | missingColumns (warning : String)
  | indexOutOfBounds
deriving DecidableEq, Repr

/-- Everything the dashboard derives from one valid upload:
the summary table, the grand totals (lines 113-115), best and worst item
(lines 117-118), the rule-based commentary (lines 120-128) and the
profit/loss banner (lines 132-135). -/
structure Report where
  summary : List SummaryRow
  total_modal : Rat
  total_penjualan : Rat
  total_keuntungan : Rat
  best_item : Option SummaryRow
  worst_item : Option SummaryRow
  commentary : String
  profitable : Bool
  banner : String
deriving DecidableEq, Repr

/-- Build the `Report` from the summary and its first and last row. -/
def mkReport (s : List SummaryRow) (best worst : SummaryRow) : Report :=
  let m := (s.map SummaryRow.total_Modal).sum
  let p := (s.map SummaryRow.total_Penjualan).sum
  let k := (s.map SummaryRow.keuntungan).sum
  { summary := s
    total_modal := m
    total_penjualan := p
    total_keuntungan := k
    best_item := some best
    worst_item := some worst
    commentary := commentaryText m p k best worst
    profitable := decide (0 < k)
    banner := if 0 < k then untungMsg else rugiMsg }

/-- One run of the dashboard body for an uploaded table
(app.py lines 80-135): check the required columns, aggregate, take
grand totals, best (`iloc[0]`) and worst (`iloc[-1]`) item, commentary
and banner.  `iloc` on an empty summary is the `indexOutOfBounds`
failure; a missing column is the warning branch. -/
def runDashboard (t : UploadedTable) : Except DashboardError Report :=
  if hasRequiredCols t then
    match (summarize t).head?, (summarize t).getLast? with
    | some best, some worst => Except.ok (mkReport (summarize t) best worst)
    | _, _ => Except.error DashboardError.indexOutOfBounds
  else
    Except.error (DashboardError.missingColumns warnMsg)

/-- Substring test on character lists: `startsWithL p l` holds when `p`
is an initial segment of `l`. -/
def startsWithL : List Char → List Char → Bool
  | [], _ => true
  | _ :: _, [] => false
  | a :: p, b :: l => a == b && startsWithL p l

/-- `occursIn p l`: the pattern `p` occurs contiguously inside `l`. -/
def occursIn (p : List Char) : List Char → Bool
  | [] => startsWithL p []
  | l@(_ :: rest) => startsWithL p l || occursIn p rest

/-- `strOccurs pat s`: `pat` occurs as a substring of `s`. -/
def strOccurs (pat s : String) : Bool :=
  occursIn pat.toList s.toList

/-- A chat message: role (`system` / `assistant` / `user`) and content. -/
structure Message where
  role : String
  content : String
deriving DecidableEq, Repr

/-- Outcome of one call to the external chat-completion service. -/
inductive CallOutcome where
  | ok (text : String)
  | fail (err : String)
deriving DecidableEq, Repr

/-- The disabled-client sentinel of `generate_ai_commentary` (line 38). -/
def aiDisabledMsg : String :=
  "⚠️ AI Commentary tidak aktif (API Key belum diatur)."

/-- A plain text rendering of the summary table, standing for
`sales_summary.to_string(index=False)` (line 40). -/
def summaryToString (s : List SummaryRow) : String :=
  String.intercalate "\n"
    (s.map fun r =>
      r.barang ++ " " ++ toString r.total_Modal.num ++ " " ++
        toString r.total_Penjualan.num ++ " " ++ toString r.keuntungan.num)

/-- The prompt template of `generate_ai_commentary` (lines 41-49). -/
def aiPrompt (text_summary : String) : String :=
  "\n    Berikut data keuntungan tiap barang:\n    " ++ text_summary ++
    "\n\n    Buat analisis singkat dalam bahasa Indonesia:\n    - Barang yang paling menguntungkan\n    - Barang yang mengalami kerugian\n    - Strategi perbaikan penjualan\n    "

/-- `generate_ai_commentary` (app.py lines 35-59).  `client` is `none`
when no `GROQ_API_KEY` is configured.  `api` is the external
chat-completion service.  The second component counts the external calls
issued. -/
def generate_ai_commentary (client : Option Unit) (sales_summary : List SummaryRow)
    (api : List Message → CallOutcome) : String × Nat :=
  match client with
  | none => (aiDisabledMsg, 0)
  | some _ =>
    let prompt := aiPrompt (summaryToString sales_summary)
    match api [⟨"user", prompt⟩] with
    | CallOutcome.ok text => (text, 1)
    | CallOutcome.fail e => ("❌ Error AI Commentary: " ++ e, 1)

/-- The seed of `st.session_state.chat_history` (lines 150-153): one
system turn, then one assistant turn carrying the AI commentary. -/
def initialChatHistory (ai_text : String) : List Message :=
  [⟨"system", "Anda adalah asisten kasir dan analis keuangan bisnis kecil."⟩,
   ⟨"assistant", ai_text⟩]

/-- The `if "chat_history" not in st.session_state` guard (line 149):
`prev` is the session state surviving from earlier script runs; the
history is seeded only when it is absent. -/
def initChatState (prev : Option (List Message)) (ai_text : String) : List Message :=
  match prev with
  | none => initialChatHistory ai_text
  | some h => h

/-- One chat turn (app.py lines 163-177): append the user turn, send the
whole history to the service; on success append the assistant reply, on
failure keep the dangling user turn and surface the error string
(`st.error`, line 177) instead of raising. -/
def chatStep (history : List Message) (question : String)
    (api : List Message → CallOutcome) : List Message × Option String :=
  let h1 := history ++ [⟨"user", question⟩]
  match api h1 with
  | CallOutcome.ok answer => (h1 ++ [⟨"assistant", answer⟩], none)
  | CallOutcome.fail e => (h1, some ("❌ Error chat: " ++ e))

/-- A run of successive chat turns in which every service call succeeds:
`steps` pairs each question with the service's answer. -/
def runChatOk (h : List Message) (steps : List (String × String)) : List Message :=
  steps.foldl (fun h qa => (chatStep h qa.1 fun _ => CallOutcome.ok qa.2).1) h

/-- The worked example of the spec: Widget (cost 10, price 20, qty 5)
and Gadget (cost 50, price 40, qty 2). -/
def exampleTable : UploadedTable :=
  { columns := required_cols
    data := [⟨"Widget", 10, 20, 5⟩, ⟨"Gadget", 50, 40, 2⟩] }

/-- A table with a single item row. -/
def singleTable : UploadedTable :=
  { columns := required_cols
    data := [⟨"Widget", 10, 20, 5⟩] }

/-- A fallback report used only to name the `.ok` payloads below. -/
def emptyReport : Report :=
  ⟨[], 0, 0, 0, none, none, "", false, ""⟩

/-- The report the dashboard computes for `exampleTable`. -/
def exampleReport : Report :=
  (runDashboard exampleTable).toOption.getD emptyReport

/-- The report the dashboard computes for `singleTable`. -/
def singleReport : Report :=
  (runDashboard singleTable).toOption.getD emptyReport

/-! ### Helper lemmas -/

lemma mem_groupKeysStep {ks : List String} {r : DerivedRow} {s : String} :
    s ∈ groupKeysStep ks r ↔ s ∈ ks ∨ s = r.namaBarang := by
  by_cases hm : r.namaBarang ∈ ks
  · simp only [groupKeysStep, hm, List.elem_iff, if_true]
    exact ⟨Or.inl, fun h => h.elim id fun e => e ▸ hm⟩
  · simp [groupKeysStep, hm]

lemma nodup_groupKeysStep {ks : List String} {r : DerivedRow} (h : ks.Nodup) :
    (groupKeysStep ks r).Nodup := by
  by_cases hm : r.namaBarang ∈ ks
  · simpa [groupKeysStep, hm] using h
  · simp [groupKeysStep, hm, List.nodup_append, h]

lemma mem_foldl_groupKeysStep (l : List DerivedRow) :
    ∀ (ks : List String) (s : String),
      s ∈ l.foldl groupKeysStep ks ↔ s ∈ ks ∨ ∃ r ∈ l, r.namaBarang = s := by
  induction l with
  | nil => intro ks s; simp
  | cons a l ih =>
    intro ks s
    rw [List.foldl_cons, ih, mem_groupKeysStep]
    constructor
    · rintro ((hs | rfl) | ⟨r, hr, rfl⟩)
      · exact Or.inl hs
      · exact Or.inr ⟨a, List.mem_cons_self a l, rfl⟩
      · exact Or.inr ⟨r, List.mem_cons_of_mem a hr, rfl⟩
    · rintro (hs | ⟨r, hr, rfl⟩)
      · exact Or.inl (Or.inl hs)
      · rcases List.mem_cons.mp hr with rfl | hr
        · exact Or.inl (Or.inr rfl)
        · exact Or.inr ⟨r, hr, rfl⟩

lemma nodup_foldl_groupKeysStep (l : List DerivedRow) :
    ∀ ks : List String, ks.Nodup → (l.foldl groupKeysStep ks).Nodup := by
  induction l with
  | nil => intro ks h; simpa using h
  | cons a l ih => intro ks h; exact ih _ (nodup_groupKeysStep h)

lemma mem_groupKeys {rows : List DerivedRow} {s : String} :
    s ∈ groupKeys rows ↔ ∃ r ∈ rows, r.namaBarang = s := by
  unfold groupKeys
  rw [mem_foldl_groupKeysStep]
  simp

lemma nodup_groupKeys (rows : List DerivedRow) : (groupKeys rows).Nodup :=
  nodup_foldl_groupKeysStep rows [] List.nodup_nil

lemma groupedRows_map_barang (t : UploadedTable) :
    (groupedRows t).map SummaryRow.barang = groupKeys (t.data.map addDerived) := by
  unfold groupedRows
  rw [List.map_map]
  have h : SummaryRow.barang ∘ sumFor (t.data.map addDerived) = id := by
    funext k; rfl
  rw [h, List.map_id]

lemma sum_map_filter_split {α : Type} (p : α → Bool) (v : α → Rat) (l : List α) :
    ((l.filter p).map v).sum + ((l.filter fun a => !(p a)).map v).sum = (l.map v).sum := by
  induction l with
  | nil => simp
  | cons a l ih =>
    cases hp : p a
    · rw [List.filter_cons_of_neg (by simp [hp]),
        List.filter_cons_of_pos (p := fun a => !(p a)) (by simp [hp])]
      simp only [List.map_cons, List.sum_cons]
      rw [← ih]
      ring
    · rw [List.filter_cons_of_pos hp,
        List.filter_cons_of_neg (p := fun a => !(p a)) (by simp [hp])]
      simp only [List.map_cons, List.sum_cons]
      rw [← ih]
      ring

lemma sum_partition (v : DerivedRow → Rat) :
    ∀ (keys : List String) (l : List DerivedRow), keys.Nodup →
      (∀ r ∈ l, r.namaBarang ∈ keys) →
      (keys.map fun k => ((l.filter fun r => r.namaBarang == k).map v).sum).sum
        = (l.map v).sum := by
  intro keys
  induction keys with
  | nil =>
    intro l _ hcov
    have hl : l = [] := by
      cases l with
      | nil => rfl
      | cons a l => exact absurd (hcov a (List.mem_cons_self a l)) (by simp)
    subst hl; simp
  | cons k ks ih =>
    intro l hnd hcov
    rw [List.map_cons, List.sum_cons]
    have hcov' : ∀ r ∈ l.filter fun r => !(r.namaBarang == k), r.namaBarang ∈ ks := by
      intro r hr
      rw [List.mem_filter] at hr
      rcases List.mem_cons.mp (hcov r hr.1) with he | hm
      · have h2 := hr.2
        simp [he] at h2
      · exact hm
    have hks : ∀ k' ∈ ks,
        ((l.filter fun r => !(r.namaBarang == k)).filter fun r => r.namaBarang == k')
          = l.filter fun r => r.namaBarang == k' := by
      intro k' hk'
      have hkk : k' ≠ k := fun e => (List.nodup_cons.mp hnd).1 (e ▸ hk')
      rw [List.filter_filter]
      apply List.filter_congr
      intro r _
      show (r.namaBarang == k' && !(r.namaBarang == k)) = (r.namaBarang == k')
      cases hrk : r.namaBarang == k'
      · rfl
      · have he : r.namaBarang = k' := by simpa using hrk
        simp [he, hkk]
    have hmap : (ks.map fun k' => ((l.filter fun r => r.namaBarang == k').map v).sum)
        = ks.map fun k' =>
            (((l.filter fun r => !(r.namaBarang == k)).filter fun r => r.namaBarang == k').map v).sum := by
      apply List.map_congr_left
      intro k' hk'
      rw [hks k' hk']
    rw [hmap, ih _ (List.nodup_cons.mp hnd).2 hcov',
      sum_map_filter_split (fun r => r.namaBarang == k) v l]

lemma summarize_perm (t : UploadedTable) : (summarize t).Perm (groupedRows t) :=
  List.perm_insertionSort _ _

lemma summarize_ne_nil {t : UploadedTable} (h : t.data ≠ []) : summarize t ≠ [] := by
  cases hd : t.data with
  | nil => exact absurd hd h
  | cons a rest =>
    have hmem : (addDerived a).namaBarang ∈ groupKeys (t.data.map addDerived) := by
      rw [mem_groupKeys]
      exact ⟨addDerived a, List.mem_map_of_mem addDerived (by rw [hd]; exact List.mem_cons_self a rest), rfl⟩
    intro hnil
    have hlen : (groupedRows t).length = 0 := by
      rw [← (summarize_perm t).length_eq, hnil]
      rfl
    have hg : groupedRows t = [] := List.length_eq_zero.mp hlen
    have hk : groupKeys (t.data.map addDerived) = [] := by
      have := congrArg (List.map SummaryRow.barang) hg
      rwa [groupedRows_map_barang t] at this
    rw [hk] at hmem
    exact List.not_mem_nil _ hmem

lemma runDashboard_ok_inv {t : UploadedTable} {rep : Report}
    (h : runDashboard t = Except.ok rep) :
    hasRequiredCols t = true ∧
      ∃ best worst, (summarize t).head? = some best ∧
        (summarize t).getLast? = some worst ∧
        rep = mkReport (summarize t) best worst := by
  cases hc : hasRequiredCols t with
  | false =>
    unfold runDashboard at h
    rw [hc] at h
    simp at h
  | true =>
    unfold runDashboard at h
    rw [if_pos (by simp [hc])] at h
    refine ⟨rfl, ?_⟩
    split at h
    · rename_i best worst h1 h2
      exact ⟨best, worst, h1, h2, (Except.ok.inj h).symm⟩
    · exact Except.noConfusion h

lemma runDashboard_ok_of_nonempty {t : UploadedTable}
    (hc : hasRequiredCols t = true) (hd : t.data ≠ []) :
    ∃ rep, runDashboard t = Except.ok rep := by
  have hne := summarize_ne_nil hd
  obtain ⟨b, hb⟩ := Option.isSome_iff_exists.mp (List.head?_isSome.mpr hne)
  obtain ⟨w, hw⟩ := Option.isSome_iff_exists.mp (List.getLast?_isSome.mpr hne)
  refine ⟨mkReport (summarize t) b w, ?_⟩
  unfold runDashboard
  rw [if_pos (by simp [hc]), hb, hw]

lemma runDashboard_empty_data {cols : List String}
    (hc : hasRequiredCols ⟨cols, []⟩ = true) :
    runDashboard ⟨cols, []⟩ = Except.error DashboardError.indexOutOfBounds := by
  have hs : summarize ⟨cols, []⟩ = [] := rfl
  unfold runDashboard
  rw [if_pos (by simp [hc]), hs]
  rfl

lemma mkReport_summary (s : List SummaryRow) (b w : SummaryRow) :
    (mkReport s b w).summary = s := rfl

lemma mkReport_total_modal (s : List SummaryRow) (b w : SummaryRow) :
    (mkReport s b w).total_modal = (s.map SummaryRow.total_Modal).sum := rfl

lemma mkReport_total_penjualan (s : List SummaryRow) (b w : SummaryRow) :
    (mkReport s b w).total_penjualan = (s.map SummaryRow.total_Penjualan).sum := rfl

lemma mkReport_total_keuntungan (s : List SummaryRow) (b w : SummaryRow) :
    (mkReport s b w).total_keuntungan = (s.map SummaryRow.keuntungan).sum := rfl

lemma mkReport_best_item (s : List SummaryRow) (b w : SummaryRow) :
    (mkReport s b w).best_item = some b := rfl

lemma mkReport_worst_item (s : List SummaryRow) (b w : SummaryRow) :
    (mkReport s b w).worst_item = some w := rfl

lemma mkReport_commentary (s : List SummaryRow) (b w : SummaryRow) :
    (mkReport s b w).commentary
      = commentaryText ((s.map SummaryRow.total_Modal).sum)
          ((s.map SummaryRow.total_Penjualan).sum)
          ((s.map SummaryRow.keuntungan).sum) b w := rfl

lemma mkReport_profitable (s : List SummaryRow) (b w : SummaryRow) :
    (mkReport s b w).profitable = decide (0 < (s.map SummaryRow.keuntungan).sum) := rfl

lemma mkReport_banner (s : List SummaryRow) (b w : SummaryRow) :
    (mkReport s b w).banner
      = if 0 < (s.map SummaryRow.keuntungan).sum then untungMsg else rugiMsg := rfl

lemma summarize_map_sum (t : UploadedTable) (f : SummaryRow → Rat) (w : DerivedRow → Rat)
    (hf : ∀ d k, f (sumFor d k) = ((d.filter fun r => r.namaBarang == k).map w).sum) :
    ((summarize t).map f).sum = ((t.data.map addDerived).map w).sum := by
  rw [((summarize_perm t).map f).sum_eq]
  unfold groupedRows
  rw [List.map_map]
  have hcomp : (f ∘ sumFor (t.data.map addDerived))
      = fun k => (((t.data.map addDerived).filter fun r => r.namaBarang == k).map w).sum :=
    funext fun k => hf _ k
  rw [hcomp]
  exact sum_partition w _ _ (nodup_groupKeys _) (fun r hr => mem_groupKeys.mpr ⟨r, hr, rfl⟩)

/-- C1: for every upload that the dashboard processes, the grand totals
(`total_modal`, `total_penjualan`, `total_keuntungan`, app.py lines
113-115) equal the element-wise column sums of the Item Summary rows —
and, equivalently, the sums of the per-row derived values. -/
theorem grand_totals_eq_summary_sums (t : UploadedTable) (rep : Report)
    (h : runDashboard t = Except.ok rep) :
    rep.total_modal = (rep.summary.map SummaryRow.total_Modal).sum ∧
    rep.total_penjualan = (rep.summary.map SummaryRow.total_Penjualan).sum ∧
    rep.total_keuntungan = (rep.summary.map SummaryRow.keuntungan).sum ∧
    rep.total_modal = ((t.data.map addDerived).map DerivedRow.totalModal).sum ∧
    rep.total_penjualan = ((t.data.map addDerived).map DerivedRow.totalPenjualan).sum ∧
    rep.total_keuntungan = ((t.data.map addDerived).map DerivedRow.keuntungan).sum := by
  obtain ⟨hc, best, worst, h1, h2, hrep⟩ := runDashboard_ok_inv h
  subst hrep
  refine ⟨rfl, rfl, rfl, ?_, ?_, ?_⟩
  · rw [mkReport_total_modal]
    exact summarize_map_sum t _ _ (fun d k => rfl)
  · rw [mkReport_total_penjualan]
    exact summarize_map_sum t _ _ (fun d k => rfl)
  · rw [mkReport_total_keuntungan]
    exact summarize_map_sum t _ _ (fun d k => rfl)

/-- C1 witness: the theorem applied to the spec's worked example. -/
theorem grand_totals_eq_summary_sums_witness :
    exampleReport.total_modal = (exampleReport.summary.map SummaryRow.total_Modal).sum :=
  (grand_totals_eq_summary_sums exampleTable exampleReport
    (by with_unfolding_all rfl)).1

/-- C3: an upload missing at least one required column is rejected with
the missing-columns warning, whose text names every required column, and
no report (aggregation, chart, commentary or chat seed) is produced. -/
theorem missing_columns_rejected (t : UploadedTable)
    (h : ∃ c ∈ required_cols, c ∉ t.columns) :
    runDashboard t = Except.error (DashboardError.missingColumns warnMsg) ∧
    required_cols.all (fun c => strOccurs c warnMsg) = true := by
  obtain ⟨c, hc, hnc⟩ := h
  have hreq : hasRequiredCols t = false := by
    unfold hasRequiredCols
    rw [List.all_eq_false]
    exact ⟨c, hc, fun hcon => hnc (by simpa [List.elem_iff] using hcon)⟩
  constructor
  · unfold runDashboard
    rw [if_neg (by simp [hreq])]
  · decide

/-- C3 witness: a table having only the `Nama Barang` column is
rejected. -/
theorem missing_columns_rejected_witness :
    runDashboard ⟨["Nama Barang"], []⟩
      = Except.error (DashboardError.missingColumns warnMsg) :=
  (missing_columns_rejected ⟨["Nama Barang"], []⟩
    ⟨"Harga Modal", by decide, by decide⟩).1

/-- C4: the spec's worked example, evaluated through the pipeline:
derived fields, sorted Item Summary, grand totals, classification and
best/worst item. -/
theorem example_pipeline_result :
    exampleTable.data.map addDerived
        = [⟨"Widget", 10, 20, 5, 50, 100, 50⟩, ⟨"Gadget", 50, 40, 2, 100, 80, -20⟩] ∧
    runDashboard exampleTable = Except.ok exampleReport ∧
    exampleReport.summary
        = [⟨"Widget", 50, 100, 50⟩, ⟨"Gadget", 100, 80, -20⟩] ∧
    exampleReport.total_modal = 150 ∧
    exampleReport.total_penjualan = 180 ∧
    exampleReport.total_keuntungan = 30 ∧
    exampleReport.profitable = true ∧
    exampleReport.banner = untungMsg ∧
    exampleReport.best_item = some ⟨"Widget", 50, 100, 50⟩ ∧
    exampleReport.worst_item = some ⟨"Gadget", 100, 80, -20⟩ := by
  refine ⟨?_, ?_, ?_, ?_, ?_, ?_, ?_, ?_, ?_, ?_⟩ <;> with_unfolding_all rfl

/-- C5: the business is classified profitable exactly when the total
profit is strictly positive; zero or negative profit selects the loss
banner (`st.error`), positive profit the success banner (`st.success`). -/
theorem classification_profit_loss (t : UploadedTable) (rep : Report)
    (h : runDashboard t = Except.ok rep) :
    (rep.profitable = true ↔ 0 < rep.total_keuntungan) ∧
    (rep.total_keuntungan = 0 → rep.profitable = false) ∧
    rep.banner = (if rep.profitable = true then untungMsg else rugiMsg) := by
  obtain ⟨hc, best, worst, h1, h2, hrep⟩ := runDashboard_ok_inv h
  subst hrep
  rw [mkReport_profitable, mkReport_banner, mkReport_total_keuntungan]
  refine ⟨decide_eq_true_iff, ?_, ?_⟩
  · intro hzero
    rw [hzero]
    simp
  · by_cases hk : 0 < ((summarize t).map SummaryRow.keuntungan).sum
    · simp [hk]
    · simp [hk]

/-- C5 witness: the worked example is classified profitable. -/
theorem classification_profit_loss_witness :
    exampleReport.profitable = true ↔ 0 < exampleReport.total_keuntungan :=
  (classification_profit_loss exampleTable exampleReport
    (by with_unfolding_all rfl)).1

/-- C6: when the Item Summary has exactly one row the reporter does not
fail: best item (`iloc[0]`) and worst item (`iloc[-1]`) are that same
row, and the narrative fills both slots with it. -/
theorem single_item_best_equals_worst (t : UploadedTable) (rep : Report)
    (h : runDashboard t = Except.ok rep) (h1 : rep.summary.length = 1) :
    rep.best_item = rep.worst_item ∧
    ∃ row, rep.summary = [row] ∧ rep.best_item = some row ∧
      rep.worst_item = some row ∧
      rep.commentary = commentaryText rep.total_modal rep.total_penjualan
        rep.total_keuntungan row row := by
  obtain ⟨hc, best, worst, hb, hw, hrep⟩ := runDashboard_ok_inv h
  subst hrep
  rw [mkReport_summary] at h1
  obtain ⟨row, hrow⟩ := List.length_eq_one.mp h1
  rw [hrow] at hb hw
  simp only [List.head?_cons, Option.some.injEq] at hb
  simp only [List.getLast?_singleton, Option.some.injEq] at hw
  subst hb
  subst hw
  refine ⟨rfl, row, ?_, rfl, rfl, ?_⟩
  · rw [mkReport_summary, hrow]
  · rw [mkReport_commentary, mkReport_total_modal, mkReport_total_penjualan,
      mkReport_total_keuntungan]

/-- C6 witness: the single-item table reports the same row in both
slots. -/
theorem single_item_best_equals_worst_witness :
    singleReport.best_item = singleReport.worst_item :=
  (single_item_best_equals_worst singleTable singleReport
    (by with_unfolding_all rfl) (by with_unfolding_all rfl)).1

/-- C7: `generate_ai_commentary` is a total function of its inputs:
with no credential it returns the disabled sentinel and issues zero
external calls; with a credential it issues exactly one call and maps a
failing call to the fixed-format error string (and a successful call to
the reply text) instead of propagating the failure. -/
theorem generate_ai_commentary_total (s : List SummaryRow)
    (api : List Message → CallOutcome) :
    generate_ai_commentary none s api = (aiDisabledMsg, 0) ∧
    (∀ e, api [⟨"user", aiPrompt (summaryToString s)⟩] = CallOutcome.fail e →
      generate_ai_commentary (some ()) s api = ("❌ Error AI Commentary: " ++ e, 1)) ∧
    (∀ txt, api [⟨"user", aiPrompt (summaryToString s)⟩] = CallOutcome.ok txt →
      generate_ai_commentary (some ()) s api = (txt, 1)) := by
  refine ⟨rfl, ?_, ?_⟩
  · intro e he
    show (match api [⟨"user", aiPrompt (summaryToString s)⟩] with
      | CallOutcome.ok text => (text, 1)
      | CallOutcome.fail err => ("❌ Error AI Commentary: " ++ err, 1)) = _
    rw [he]
  · intro txt ht
    show (match api [⟨"user", aiPrompt (summaryToString s)⟩] with
      | CallOutcome.ok text => (text, 1)
      | CallOutcome.fail err => ("❌ Error AI Commentary: " ++ err, 1)) = _
    rw [ht]

/-- C7 witness: a failing service call is converted into the error
string. -/
theorem generate_ai_commentary_total_witness :
    generate_ai_commentary (some ()) [] (fun _ => CallOutcome.fail "boom")
      = ("❌ Error AI Commentary: " ++ "boom", 1) :=
  (generate_ai_commentary_total [] (fun _ => CallOutcome.fail "boom")).2.1 "boom" rfl

lemma runChatOk_length (steps : List (String × String)) :
    ∀ h : List Message, (runChatOk h steps).length = h.length + 2 * steps.length := by
  induction steps with
  | nil => intro h; rfl
  | cons qa steps ih =>
    intro h
    show (runChatOk ((chatStep h qa.1 fun _ => CallOutcome.ok qa.2).1) steps).length = _
    rw [ih]
    show ((h ++ [Message.mk "user" qa.1]) ++ [Message.mk "assistant" qa.2]).length
        + 2 * steps.length = h.length + 2 * (steps.length + 1)
    simp only [List.length_append, List.length_singleton]
    ring

/-- C8: the chat history starts with exactly two turns (system then
assistant); after `N` successfully answered questions it has `2 + 2N`
turns; a failing reply keeps the dangling user turn (length
`2 + 2N + 1` after `N` successes), appends no assistant turn, and
surfaces the error as a displayable string rather than aborting. -/
theorem chat_history_turn_counts (ai_text : String) :
    (initialChatHistory ai_text).length = 2 ∧
    (initialChatHistory ai_text).map Message.role = ["system", "assistant"] ∧
    (∀ steps : List (String × String),
      (runChatOk (initialChatHistory ai_text) steps).length = 2 + 2 * steps.length) ∧
    (∀ (steps : List (String × String)) (q e : String),
      chatStep (runChatOk (initialChatHistory ai_text) steps) q
          (fun _ => CallOutcome.fail e)
        = (runChatOk (initialChatHistory ai_text) steps ++ [⟨"user", q⟩],
            some ("❌ Error chat: " ++ e)) ∧
      (chatStep (runChatOk (initialChatHistory ai_text) steps) q
          (fun _ => CallOutcome.fail e)).1.length = 2 + 2 * steps.length + 1) := by
  refine ⟨rfl, rfl, ?_, ?_⟩
  · intro steps
    rw [runChatOk_length]
    rfl
  · intro steps q e
    refine ⟨rfl, ?_⟩
    show (runChatOk (initialChatHistory ai_text) steps
        ++ [Message.mk "user" q]).length = 2 + 2 * steps.length + 1
    rw [List.length_append, runChatOk_length]
    rfl

/-- C9 counterexample: on a script re-run after a new upload (session
state still holding the old history, commentary now `"B"` instead of
`"A"`), the history is kept unchanged and is not re-seeded from the new
analysis. -/
theorem chat_reset_counterexample :
    initChatState (some (initialChatHistory "A")) "B" = initialChatHistory "A" ∧
    initChatState (some (initialChatHistory "A")) "B" ≠ initialChatHistory "B" := by
  constructor
  · rfl
  · decide

/-- C9 (amended): the chat history is seeded only when absent from the
session state; a later run with a different commentary keeps the prior
history and does not re-seed it. -/
theorem chat_history_persists_across_uploads (h : List Message) (a b : String)
    (hab : a ≠ b) :
    initChatState none a = initialChatHistory a ∧
    initChatState (some h) b = h ∧
    initChatState (some (initChatState none a)) b = initialChatHistory a ∧
    initChatState (some (initChatState none a)) b ≠ initialChatHistory b := by
  refine ⟨rfl, rfl, rfl, ?_⟩
  intro he
  simp only [initChatState, initialChatHistory, List.cons.injEq, Message.mk.injEq,
    and_true, true_and] at he
  exact hab he

/-- C9 witness: the amended statement at concrete commentaries. -/
theorem chat_history_persists_across_uploads_witness :
    initChatState (some (initChatState none "A")) "B" = initialChatHistory "A" ∧
    initChatState (some (initChatState none "A")) "B" ≠ initialChatHistory "B" :=
  ⟨(chat_history_persists_across_uploads [] "A" "B" (by decide)).2.2.1,
    (chat_history_persists_across_uploads [] "A" "B" (by decide)).2.2.2⟩

/-- C10: a table holding the required columns but no data rows yields an
empty Item Summary, so the reporter's first/last-row accesses are out of
bounds (`indexOutOfBounds`); with at least one data row the dashboard
always produces a report. -/
theorem empty_table_reporter_out_of_bounds :
    (∀ cols : List String, hasRequiredCols ⟨cols, []⟩ = true →
      summarize ⟨cols, []⟩ = [] ∧
      (summarize ⟨cols, []⟩).head? = none ∧
      runDashboard ⟨cols, []⟩ = Except.error DashboardError.indexOutOfBounds) ∧
    (∀ t : UploadedTable, hasRequiredCols t = true → t.data ≠ [] →
      ∃ rep, runDashboard t = Except.ok rep) :=
  ⟨fun _ hc => ⟨rfl, rfl, runDashboard_empty_data hc⟩,
    fun _ hc hd => runDashboard_ok_of_nonempty hc hd⟩

/-- C10 witness: the empty table with exactly the required columns fails
with the out-of-bounds error, while the one-row table succeeds. -/
theorem empty_table_reporter_out_of_bounds_witness :
    runDashboard ⟨required_cols, []⟩
        = Except.error DashboardError.indexOutOfBounds ∧
    (runDashboard singleTable).toOption.isSome = true := by
  constructor
  · exact (empty_table_reporter_out_of_bounds.1 required_cols rfl).2.2
  · obtain ⟨rep, hrep⟩ :=
      empty_table_reporter_out_of_bounds.2 singleTable rfl (by decide)
    rw [hrep]
    rfl
